import Mathlib

/-!
Shallow embedding of `pymatgen/io/abinitio/pseudo_dojo.py` (the Dojo
pseudopotential-validation subsystem) and proofs about its claimed behaviour.

Conventions of the embedding:
* Python dicts whose values are JSON-like data are association lists
  `List (String × JVal)`; keys are unique in every dict the program builds.
* Python exceptions are modelled with `Except PyError`; methods that mutate
  instance state return the post-state explicitly, so an error path returning
  the unchanged state models "raises without mutating".
* Machine-level concerns (actual file IO, the external `Work`/factory
  collaborators running calculations) are abstracted: file writes performed by
  this module are collected in an explicit write log, and the external
  collaborators are parameters of the functions that call them.
-/

/-- JSON-like values stored in reports and results dictionaries. -/
inductive JVal where
  | num (n : Int)
  | str (s : String)
  | obj (d : List (String × JVal))

/-- A Python dict with JSON-like values, as an association list with unique keys. -/
abbrev Dict := List (String × JVal)

/-- Python `d[key]` lookup / `key in d` support: first binding of `key`. -/
def dlookup : Dict → String → Option JVal
  | [], _ => none
  | (k, v) :: rest, key => if k = key then some v else dlookup rest key

/-- Python `key in d`. -/
def hasKey (d : Dict) (key : String) : Bool := (dlookup d key).isSome

/-- Python `old.update(new)`: existing keys keep their position and take the
new value; keys only in `new` are appended in order. -/
def dupdate (old new : Dict) : Dict :=
  old.map (fun kv => match dlookup new kv.1 with
    | some v => (kv.1, v)
    | none => kv)
  ++ new.filter (fun kv => !(hasKey old kv.1))

/-- `os.path.join(a, b)` for the relative paths this module builds. -/
def pathJoin (a b : String) : String := a ++ "/" ++ b

/-- Boolean path-prefix test (`p` lies in the subtree rooted at `d`),
on the underlying character lists so that it evaluates by `decide`. -/
def strPre (d p : String) : Bool := d.data.isPrefixOf p.data

/-- Python `str` of a bool, as used in `"isok: %s" % isok`. -/
def pyStr (b : Bool) : String := if b then "True" else "False"

/-- The Python exceptions this module can raise. -/
inductive PyError where
  | dojoError (msg : String)       -- `DojoError` raised by the module itself
  | keyError (msg : String)        -- `KeyError`
  | nameError (name : String)      -- `NameError`: reference to an undefined name
  | attributeError (name : String) -- `AttributeError`: instance field never assigned
deriving DecidableEq, Repr

/-- Modelled from the spec: `RunMode` (pymatgen.io.abinitio, not under src/) is
an external execution-configuration object: mode (sequential or parallel) and a
batching parameter; `RunMode.sequential()` is its default constructor. -/
structure RunMode where
  sequential : Bool
  chunk_size : Option Nat
deriving DecidableEq, Repr

/-- `RunMode.sequential()`. -/
def RunMode.sequentialMode : RunMode := ⟨true, none⟩

/-- Modelled from the spec: a `Pseudo` (pymatgen.io.abinitio.pseudos, not under
src/) exposes a name, a nullable dojo level, and a persisted dojo report read
via `read_dojo_report()` and replaced via `write_dojo_report(report)`. -/
structure Pseudo where
  name : String
  dojo_level : Option Int
  dojo_report : Dict

/-- A `DojoMaster` subclass as discovered by `DojoMaster.__subclasses__()`:
its two class attributes. -/
structure MasterCls where
  dojo_level : Int
  dojo_key : String
deriving DecidableEq, Repr

/-- `HintsMaster`: `dojo_level = 0`, `dojo_key = "hints"`. -/
def hintsCls : MasterCls := ⟨0, "hints"⟩

/-- `DeltaFactorMaster`: `dojo_level = 1`, `dojo_key = "delta_factor"`. -/
def deltaCls : MasterCls := ⟨1, "delta_factor"⟩

/-- `DojoMaster.__subclasses__()` for this module, in definition order. -/
def dojoSubclasses : List MasterCls := [hintsCls, deltaCls]

/-- Instance state of a `DojoMaster`. `pseudo = none` models the fresh
instance on which `self.pseudo` was never assigned (so reading it raises
`AttributeError`). -/
structure DojoMaster where
  dojo_level : Int
  dojo_key : String
  runmode : RunMode
  pseudo : Option Pseudo
  reports : List Dict
  errors : List String

/-- `DojoMaster.__init__(self, runmode=None)`. -/
def DojoMaster.initMaster (cls : MasterCls) (runmode : Option RunMode) : DojoMaster :=
  { dojo_level := cls.dojo_level
    dojo_key := cls.dojo_key
    runmode := runmode.getD RunMode.sequentialMode
    pseudo := none
    reports := []
    errors := [] }

/-- The eligibility computation inside `DojoMaster.accept_pseudo`. -/
def readyFor (dojo_level : Int) (p : Pseudo) : Bool :=
  match p.dojo_level with
  | none => dojo_level = 0          -- hints are missing
  | some l => l = dojo_level - 1

/-- `DojoMaster.accept_pseudo(self, pseudo)`: returns the boolean result and
the post-state (on success the pseudo is bound to the instance). -/
def DojoMaster.accept_pseudo (m : DojoMaster) (p : Pseudo) : Bool × DojoMaster :=
  if readyFor m.dojo_level p then (true, { m with pseudo := some p }) else (false, m)

/-- `DojoMaster.subclass_from_dojo_level(dojo_level)`, a staticmethod.  When
the number of matching subclasses is not 1 it executes `raise self.Error(...)`;
`self` is undefined in a staticmethod, so that line raises `NameError`. -/
def DojoMaster.subclass_from_dojo_level (subclasses : List MasterCls) (dojo_level : Int) :
    Except PyError MasterCls :=
  match subclasses.filter (fun cls => cls.dojo_level = dojo_level) with
  | [cls] => .ok cls
  | _ => .error (.nameError "self")

/-- `DojoMaster.write_dojo_report(self, report, overwrite_data=False,
ignore_errors=False)`.  The loop body tests `okey in report and not overwrite`;
`overwrite` is an undefined name, so the first old key also present in `report`
raises `NameError` (regardless of `overwrite_data`).  Returns the post-state
and the outcome. -/
def DojoMaster.write_dojo_report (m : DojoMaster) (report : Dict)
    (_overwrite_data _ignore_errors : Bool) : DojoMaster × Except PyError Unit :=
  match m.pseudo with
  | none => (m, .error (.attributeError "pseudo"))
  | some pseudo =>
    let old_report := pseudo.dojo_report
    if old_report.any (fun okey => hasKey report okey.1) then
      (m, .error (.nameError "overwrite"))
    else
      ({ m with pseudo := some { pseudo with dojo_report := dupdate old_report report } },
       .ok ())

/-- The external `Work` collaborator: only the parts consumed by this module. -/
structure Work where
  workdir : String
deriving DecidableEq, Repr

/-- `Work.path_in_workdir(name)`. -/
def Work.path_in_workdir (w : Work) (name : String) : String := pathJoin w.workdir name

/-- Modelled from the spec: behaviour of the external workflow factories and
the `Work` units they build (pymatgen.io.abinitio.workflow / deltaworks, not
under src/).  `work1`/`work2` give the `Work` built from a target directory in
the two `work_for_pseudo` calls of `HintsMaster.challenge`; `results1` and
`results2` are the two `get_results()` mappings. -/
structure WorkEnv where
  work1 : String → Work
  work2 : String → Work
  results1 : Dict
  results2 : Dict

/-- Log of the JSON files this module itself writes: (path, content) pairs in
write order. -/
abbrev FileLog := List (String × JVal)

/-- `HintsMaster.challenge(self, workdir, **kwargs)`.  The numerical work is
delegated to the external factory/Work collaborators (`env`); the module-level
effects kept here are: reading `self.pseudo` first, the `LEVEL_<n>` working
directory, and dumping the second `get_results()` to `dojo_results.json`
inside the second Work's directory before returning it. -/
def HintsMaster.challenge (m : DojoMaster) (env : WorkEnv) (workdir : String) :
    FileLog × Except PyError Dict :=
  match m.pseudo with
  | none => ([], .error (.attributeError "pseudo"))
  | some _pseudo =>
    let workdir := pathJoin workdir ("LEVEL_" ++ toString m.dojo_level)
    let _w := env.work1 workdir
    let _wres := env.results1
    let w := env.work2 workdir
    let wres := env.results2
    ([(w.path_in_workdir "dojo_results.json", JVal.obj wres)], .ok wres)

/-- `HintsMaster.make_report(self, results, **kwargs)`: copies the "low",
"normal", "high" entries (raising `KeyError` at the first missing one, in that
order) and returns `({self.dojo_key: d}, True)` with `dojo_key = "hints"`. -/
def HintsMaster.make_report (results : Dict) : Except PyError (Dict × Bool) :=
  match dlookup results "low" with
  | none => .error (.keyError "low is missing in input results")
  | some vlow =>
    match dlookup results "normal" with
    | none => .error (.keyError "normal is missing in input results")
    | some vnormal =>
      match dlookup results "high" with
      | none => .error (.keyError "high is missing in input results")
      | some vhigh =>
        .ok ([("hints", JVal.obj [("low", vlow), ("normal", vnormal), ("high", vhigh)])], true)

/-- `DeltaFactorMaster.challenge(self, workdir, **kwargs)`.  After reading
`self.pseudo` and building the `LEVEL_<n>` directory name, the call
`factory.work_for_pseudo(workdir, runmode, pseudo, kppa=1)` references the
bare name `runmode`, which is not defined in the method's scope, so the method
raises `NameError` before any Work is built or any file is written. -/
def DeltaFactorMaster.challenge (m : DojoMaster) (_env : WorkEnv) (workdir : String) :
    FileLog × Except PyError Dict :=
  match m.pseudo with
  | none => ([], .error (.attributeError "pseudo"))
  | some _pseudo =>
    let _workdir := pathJoin workdir ("LEVEL_" ++ toString m.dojo_level)
    ([], .error (.nameError "runmode"))

/-- `DeltaFactorMaster.make_report(self, results, **kwargs)`: an empty report
fragment under `dojo_key = "delta_factor"` with verdict `True`. -/
def DeltaFactorMaster.make_report (_results : Dict) : Except PyError (Dict × Bool) :=
  .ok ([("delta_factor", JVal.obj [])], true)

/-- Type of the `challenge` abstract method as seen from `start_training`. -/
abbrev Challenge := DojoMaster → String → FileLog × Except PyError Dict

/-- Type of the `make_report` abstract method as seen from `start_training`. -/
abbrev MakeReport := DojoMaster → Dict → Except PyError (Dict × Bool)

/-- `DojoMaster.start_training(self, workdir, **kwargs)`: run `challenge`,
build the report, dump the raw results to `<workdir>/report.json`, then either
persist the report with `write_dojo_report` or raise `DojoError("isok: %s")`.
Returns the file-write log, the post-state and the outcome. -/
def DojoMaster.start_training (m : DojoMaster) (ch : Challenge) (mk : MakeReport)
    (workdir : String) : FileLog × DojoMaster × Except PyError Unit :=
  match ch m workdir with
  | (files, .error e) => (files, m, .error e)
  | (files, .ok results) =>
    match mk m results with
    | .error e => (files, m, .error e)
    | .ok (report, isok) =>
      let files := files ++ [(pathJoin workdir "report.json", JVal.obj results)]
      if isok then
        let wr := m.write_dojo_report report false false
        (files, wr.1, wr.2)
      else
        (files, m, .error (.dojoError ("isok: " ++ pyStr isok)))

/-- Stable insertion step for sorting master classes by level
(Python `list.sort(key=...)` is stable). -/
def insertCls (c : MasterCls) : List MasterCls → List MasterCls
  | [] => [c]
  | d :: ds => if c.dojo_level ≤ d.dojo_level then c :: d :: ds else d :: insertCls c ds

/-- Stable sort of master classes by ascending `dojo_level`. -/
def sortByLevel (cs : List MasterCls) : List MasterCls := cs.foldr insertCls []

/-- `Dojo.__init__(self, max_level=None)`: discover the subclasses, sort by
level, truncate to the first `max_level+1`.  The body has no failure path, so
the result is always `.ok`. -/
def Dojo.init (subclasses : List MasterCls) (max_level : Option Nat) :
    Except PyError (List MasterCls) :=
  let classes := sortByLevel subclasses
  match max_level with
  | none => .ok classes
  | some ml => .ok (classes.take (ml + 1))

/-- Type of the per-class training driver (`start_training` with the class's
`challenge`/`make_report` plugged in) as invoked by `Dojo.challenge_pseudo`. -/
abbrev Trainer := DojoMaster → String → DojoMaster × Except PyError Unit

/-- The `for master in masters` loop of `Dojo.challenge_pseudo`: returns the
levels whose training was invoked (in loop order) and the outcome; an
exception raised by a training aborts the loop and propagates. -/
def Dojo.run_masters (T : Trainer) (pseudo : Pseudo) (workdir : String) :
    List DojoMaster → List Int × Except PyError Unit
  | [] => ([], .ok ())
  | master :: rest =>
    let acc := master.accept_pseudo pseudo
    if acc.1 then
      match T acc.2 workdir with
      | (_, .error e) => ([acc.2.dojo_level], .error e)
      | (_, .ok _) =>
        let r := Dojo.run_masters T pseudo workdir rest
        (acc.2.dojo_level :: r.1, r.2)
    else
      Dojo.run_masters T pseudo workdir rest

/-- `Dojo.challenge_pseudo(self, pseudo, runmode)`: build one master instance
per discovered class (all sharing `runmode`), then train every master that
accepts the pseudo, in list order, under working directory
`"DOJO_" + pseudo.name`.  Returns the instantiated masters, the levels whose
training was invoked, and the outcome. -/
def Dojo.challenge_pseudo (master_classes : List MasterCls) (T : Trainer)
    (pseudo : Pseudo) (runmode : RunMode) :
    List DojoMaster × List Int × Except PyError Unit :=
  let workdir := "DOJO_" ++ pseudo.name
  let masters := master_classes.map (fun cls => DojoMaster.initMaster cls (some runmode))
  let run := Dojo.run_masters T pseudo workdir masters
  (masters, run.1, run.2)

/-! ### Helper lemmas about dictionaries and path prefixes -/

theorem accept_pseudo_fst (m : DojoMaster) (p : Pseudo) :
    (m.accept_pseudo p).1 = readyFor m.dojo_level p := by
  unfold DojoMaster.accept_pseudo
  split <;> simp_all

theorem accept_pseudo_snd_level (m : DojoMaster) (p : Pseudo) :
    (m.accept_pseudo p).2.dojo_level = m.dojo_level := by
  unfold DojoMaster.accept_pseudo
  split <;> rfl

theorem readyFor_iff (L : Int) (p : Pseudo) :
    readyFor L p = true ↔ (p.dojo_level = none ∧ L = 0) ∨ p.dojo_level = some (L - 1) := by
  cases hp : p.dojo_level <;> simp [readyFor, hp]

theorem dlookup_eq_none_of_hasKey {d : Dict} {k : String} (h : hasKey d k = false) :
    dlookup d k = none := by
  unfold hasKey at h
  cases hd : dlookup d k <;> simp [hd] at h ⊢

theorem mem_of_dlookup {d : Dict} {k : String} {v : JVal} (h : dlookup d k = some v) :
    (k, v) ∈ d := by
  induction d with
  | nil => simp [dlookup] at h
  | cons kv rest ih =>
    obtain ⟨k', v'⟩ := kv
    rw [dlookup] at h
    by_cases hk : k' = k
    · rw [if_pos hk] at h
      injection h with hv
      subst hk
      subst hv
      exact List.mem_cons_self _ _
    · rw [if_neg hk] at h
      exact List.mem_cons_of_mem _ (ih h)

theorem hasKey_of_mem {d : Dict} {k : String} {v : JVal} (h : (k, v) ∈ d) :
    hasKey d k = true := by
  induction d with
  | nil => simp at h
  | cons kv rest ih =>
    rcases List.mem_cons.mp h with h1 | h2
    · simp [hasKey, dlookup, ← h1]
    · by_cases hk : kv.1 = k
      · simp [hasKey, dlookup, hk]
      · simpa [hasKey, dlookup, hk] using ih h2

theorem strPre_pathJoin (a b : String) : strPre a (pathJoin a b) = true := by
  simp only [strPre, pathJoin, List.isPrefixOf_iff_prefix, String.data_append,
    List.append_assoc]
  exact List.prefix_append _ _

theorem strPre_trans {a b c : String} (h1 : strPre a b = true) (h2 : strPre b c = true) :
    strPre a c = true := by
  simp only [strPre, List.isPrefixOf_iff_prefix] at *
  exact h1.trans h2

/-! ### Claim theorems -/

/-- Claim C1: `accept_pseudo(p)` returns true iff (p has no assigned dojo level and
the master's level is 0) or (p's assigned level equals the master's level
minus 1); on true it binds p as the instance's pseudopotential, and on false
it leaves the instance state unchanged. -/
theorem accept_pseudo_correct (m : DojoMaster) (p : Pseudo) :
    ((m.accept_pseudo p).1 = true ↔
      (p.dojo_level = none ∧ m.dojo_level = 0) ∨ p.dojo_level = some (m.dojo_level - 1)) ∧
    ((m.accept_pseudo p).1 = true → (m.accept_pseudo p).2 = { m with pseudo := some p }) ∧
    ((m.accept_pseudo p).1 = false → (m.accept_pseudo p).2 = m) := by
  refine ⟨?_, ?_, ?_⟩
  · rw [accept_pseudo_fst, readyFor_iff]
  · intro h
    rw [accept_pseudo_fst] at h
    simp [DojoMaster.accept_pseudo, h]
  · intro h
    rw [accept_pseudo_fst] at h
    simp [DojoMaster.accept_pseudo, h]

/-- Witness for C1 at a concrete master and pseudopotential. -/
theorem accept_pseudo_correct_witness :
    ((DojoMaster.initMaster hintsCls none).accept_pseudo ⟨"Si", none, []⟩).1 = true ∧
    ((DojoMaster.initMaster hintsCls none).accept_pseudo ⟨"Si", none, []⟩).2 =
      { DojoMaster.initMaster hintsCls none with pseudo := some ⟨"Si", none, []⟩ } :=
  ⟨(accept_pseudo_correct (DojoMaster.initMaster hintsCls none) ⟨"Si", none, []⟩).1.mpr
      (Or.inl ⟨rfl, rfl⟩),
    (accept_pseudo_correct (DojoMaster.initMaster hintsCls none) ⟨"Si", none, []⟩).2.1
      ((accept_pseudo_correct (DojoMaster.initMaster hintsCls none) ⟨"Si", none, []⟩).1.mpr
        (Or.inl ⟨rfl, rfl⟩))⟩

/-- Claim C5: `HintsMaster.make_report` returns `({"hints": d}, True)` with `d`
holding exactly the "low", "normal", "high" entries copied from the input when
all three are present, and raises a `KeyError` naming the first absent key
otherwise. -/
theorem hints_make_report_correct (results : Dict) :
    (∀ vl vn vh, dlookup results "low" = some vl → dlookup results "normal" = some vn →
      dlookup results "high" = some vh →
      HintsMaster.make_report results =
        .ok ([("hints", JVal.obj [("low", vl), ("normal", vn), ("high", vh)])], true)) ∧
    (dlookup results "low" = none →
      HintsMaster.make_report results = .error (.keyError "low is missing in input results")) ∧
    (∀ vl, dlookup results "low" = some vl → dlookup results "normal" = none →
      HintsMaster.make_report results =
        .error (.keyError "normal is missing in input results")) ∧
    (∀ vl vn, dlookup results "low" = some vl → dlookup results "normal" = some vn →
      dlookup results "high" = none →
      HintsMaster.make_report results =
        .error (.keyError "high is missing in input results")) := by
  refine ⟨?_, ?_, ?_, ?_⟩ <;> intros <;> simp [HintsMaster.make_report, *]

/-- Witness for C5: the missing-"normal" scenario from the spec raises the
`KeyError` naming "normal". -/
theorem hints_make_report_correct_witness :
    HintsMaster.make_report [("low", JVal.obj [("ecut", JVal.num 20)]),
        ("high", JVal.obj [("ecut", JVal.num 40)])] =
      .error (.keyError "normal is missing in input results") :=
  (hints_make_report_correct _).2.2.1 (JVal.obj [("ecut", JVal.num 20)]) rfl rfl

/-- Claim C2 (code defect): with a bound pseudopotential whose persisted report
shares a key with the new report, `write_dojo_report` raises the undefined-name
error on `overwrite` and leaves the state unchanged for EVERY value of
`overwrite_data` — the parameter never gates the overlapping write, so setting
it to true does not let the write proceed. -/
theorem write_dojo_report_overlap_raises (m : DojoMaster) (p : Pseudo) (report : Dict)
    (ow ie : Bool) (hbound : m.pseudo = some p)
    (hover : p.dojo_report.any (fun okey => hasKey report okey.1) = true) :
    m.write_dojo_report report ow ie = (m, .error (.nameError "overwrite")) := by
  unfold DojoMaster.write_dojo_report
  rw [hbound]
  simp [hover]

/-- Witness for C2: overlapping key "hints" with `overwrite_data = true` still
raises, showing the parameter does not permit the write. -/
theorem write_dojo_report_overlap_raises_witness :
    ({ dojo_level := 0, dojo_key := "hints", runmode := RunMode.sequentialMode,
       pseudo := some ⟨"Si", none, [("hints", JVal.num 1)]⟩, reports := [],
       errors := [] } : DojoMaster).write_dojo_report [("hints", JVal.num 2)] true false =
      ({ dojo_level := 0, dojo_key := "hints", runmode := RunMode.sequentialMode,
         pseudo := some ⟨"Si", none, [("hints", JVal.num 1)]⟩, reports := [],
         errors := [] }, .error (.nameError "overwrite")) :=
  write_dojo_report_overlap_raises _ ⟨"Si", none, [("hints", JVal.num 1)]⟩ _ true false
    rfl rfl

/-- Claim C6: with a bound pseudopotential and a new report whose keys are disjoint
from the persisted report's keys, `write_dojo_report` succeeds and the
persisted report afterwards is exactly the old entries followed by the new
entries (their union). -/
theorem write_dojo_report_disjoint (m : DojoMaster) (p : Pseudo) (report : Dict)
    (ow ie : Bool) (hbound : m.pseudo = some p)
    (hdisj : ∀ kv ∈ p.dojo_report, hasKey report kv.1 = false) :
    m.write_dojo_report report ow ie =
      ({ m with pseudo := some { p with dojo_report := p.dojo_report ++ report } },
       .ok ()) := by
  have hany : p.dojo_report.any (fun okey => hasKey report okey.1) = false :=
    List.any_eq_false.mpr (by
      intro kv hkv
      simp [hdisj kv hkv])
  have hmap : p.dojo_report.map (fun kv => match dlookup report kv.1 with
      | some v => (kv.1, v)
      | none => kv) = p.dojo_report := by
    conv_rhs => rw [← List.map_id p.dojo_report]
    apply List.map_congr_left
    intro kv hkv
    rw [dlookup_eq_none_of_hasKey (hdisj kv hkv)]
    rfl
  have hfilter : report.filter (fun kv => !(hasKey p.dojo_report kv.1)) = report := by
    apply List.filter_eq_self.mpr
    intro kv hkv
    cases hok : hasKey p.dojo_report kv.1
    · simp
    · exfalso
      have hsome : (dlookup p.dojo_report kv.1).isSome = true := hok
      obtain ⟨v, hv⟩ := Option.isSome_iff_exists.mp hsome
      have hmem : (kv.1, v) ∈ p.dojo_report := mem_of_dlookup hv
      have : hasKey report kv.1 = false := hdisj (kv.1, v) hmem
      have : hasKey report kv.1 = true := hasKey_of_mem (v := kv.2) (by simpa using hkv)
      simp_all
  unfold DojoMaster.write_dojo_report
  rw [hbound]
  simp only [hany, Bool.false_eq_true, if_false, dupdate, hmap, hfilter]

/-- Witness for C6: disjoint keys "hints" / "delta_factor" merge into the
union of the two reports. -/
theorem write_dojo_report_disjoint_witness :
    ({ dojo_level := 1, dojo_key := "delta_factor", runmode := RunMode.sequentialMode,
       pseudo := some ⟨"Si", some 0, [("hints", JVal.num 1)]⟩, reports := [],
       errors := [] } : DojoMaster).write_dojo_report [("delta_factor", JVal.num 2)]
        false false =
      ({ dojo_level := 1, dojo_key := "delta_factor", runmode := RunMode.sequentialMode,
         pseudo := some ⟨"Si", some 0,
           [("hints", JVal.num 1), ("delta_factor", JVal.num 2)]⟩, reports := [],
         errors := [] }, .ok ()) :=
  write_dojo_report_disjoint _ ⟨"Si", some 0, [("hints", JVal.num 1)]⟩ _ false false rfl
    (by intro kv hkv; simp at hkv; rw [hkv]; rfl)

/-- Claim C7 (code defect): `DeltaFactorMaster.challenge` on a bound pseudopotential
raises the undefined-name error on `runmode` before building any work unit, so
the bound run mode is never passed to `work_for_pseudo`. -/
theorem delta_factor_challenge_raises (m : DojoMaster) (p : Pseudo) (env : WorkEnv)
    (workdir : String) (hbound : m.pseudo = some p) :
    DeltaFactorMaster.challenge m env workdir = ([], .error (.nameError "runmode")) := by
  unfold DeltaFactorMaster.challenge
  rw [hbound]

/-- Witness for C7 at a concrete bound master. -/
theorem delta_factor_challenge_raises_witness :
    DeltaFactorMaster.challenge
      { dojo_level := 1, dojo_key := "delta_factor", runmode := RunMode.sequentialMode,
        pseudo := some ⟨"Si", some 0, []⟩, reports := [], errors := [] }
      ⟨fun d => ⟨d⟩, fun d => ⟨d⟩, [], []⟩ "DOJO_Si" =
      ([], .error (.nameError "runmode")) :=
  delta_factor_challenge_raises _ ⟨"Si", some 0, []⟩ _ "DOJO_Si" rfl

/-- Claim C10: a freshly constructed master has no bound pseudopotential, so direct
calls to `write_dojo_report`, either `challenge`, or `start_training` fail
with the `AttributeError` on `self.pseudo` before writing any file or touching
any persisted state. -/
theorem fresh_master_requires_accept (cls : MasterCls) (rm : Option RunMode)
    (report : Dict) (ow ie : Bool) (env : WorkEnv) (workdir : String)
    (mk : MakeReport) :
    (DojoMaster.initMaster cls rm).pseudo = none ∧
    (DojoMaster.initMaster cls rm).write_dojo_report report ow ie =
      (DojoMaster.initMaster cls rm, .error (.attributeError "pseudo")) ∧
    HintsMaster.challenge (DojoMaster.initMaster cls rm) env workdir =
      ([], .error (.attributeError "pseudo")) ∧
    DeltaFactorMaster.challenge (DojoMaster.initMaster cls rm) env workdir =
      ([], .error (.attributeError "pseudo")) ∧
    (DojoMaster.initMaster cls rm).start_training
        (fun m wd => HintsMaster.challenge m env wd) mk workdir =
      ([], DojoMaster.initMaster cls rm, .error (.attributeError "pseudo")) :=
  ⟨rfl, rfl, rfl, rfl, rfl⟩

/-- Claim C4: once `challenge` produced raw results and `make_report` produced a
`(report, isok)` pair, `start_training` always dumps the raw results to
`report.json`; if `isok` is true it invokes `write_dojo_report` (its outcome
and state change become the training's), and if `isok` is false it raises
`DojoError("isok: False")` without invoking `write_dojo_report` (the master's
state, and so the persisted report, is unchanged). -/
theorem start_training_correct (m : DojoMaster) (ch : Challenge) (mk : MakeReport)
    (workdir : String) (fws : FileLog) (results report : Dict) (isok : Bool)
    (hch : ch m workdir = (fws, .ok results))
    (hmk : mk m results = .ok (report, isok)) :
    (m.start_training ch mk workdir).1 =
      fws ++ [(pathJoin workdir "report.json", JVal.obj results)] ∧
    (isok = true →
      (m.start_training ch mk workdir).2 = m.write_dojo_report report false false) ∧
    (isok = false →
      (m.start_training ch mk workdir).2 = (m, .error (.dojoError "isok: False"))) := by
  unfold DojoMaster.start_training
  cases isok <;> simp [hch, hmk, pyStr]

/-- Fixture: a bound level-0 master used by several witnesses. -/
def exMaster : DojoMaster :=
  { dojo_level := 0
    dojo_key := "hints"
    runmode := RunMode.sequentialMode
    pseudo := some ⟨"Si", none, []⟩
    reports := []
    errors := [] }

/-- Fixture: a challenge outcome used by the C4 witness. -/
def exCh : Challenge := fun _ _ => ([], .ok [("low", JVal.num 5)])

/-- Fixture: a report builder with a false verdict, used by the C4 witness. -/
def exMk : MakeReport := fun _ _ => .ok ([], false)

/-- Witness for C4 at a concrete run with a false verdict: the audit artifact
is still written and the state is unchanged. -/
theorem start_training_correct_witness :
    (exMaster.start_training exCh exMk "DOJO_Si").1 =
      [("DOJO_Si/report.json", JVal.obj [("low", JVal.num 5)])] ∧
    (exMaster.start_training exCh exMk "DOJO_Si").2 =
      (exMaster, .error (.dojoError "isok: False")) :=
  ⟨(start_training_correct exMaster exCh exMk "DOJO_Si" [] [("low", JVal.num 5)] []
      false rfl rfl).1,
    (start_training_correct exMaster exCh exMk "DOJO_Si" [] [("low", JVal.num 5)] []
      false rfl rfl).2.2 rfl⟩

/-- Claim C3 counterexample: constructing the Dojo coordinator with two discovered
variants sharing level 0 succeeds (no configuration error is raised at
construction time), refuting the claim that construction fails eagerly. -/
theorem dojo_init_duplicate_levels_succeeds :
    Dojo.init [⟨0, "a"⟩, ⟨0, "b"⟩] none = .ok [⟨0, "a"⟩, ⟨0, "b"⟩] := rfl

/-- Claim C3 amended: `Dojo.__init__` never fails, whatever the discovered variants;
the duplicate-level check lives only in `DojoMaster.subclass_from_dojo_level`,
which fails when the variants at the requested level are not exactly one
(raising the undefined-name error on `self`, since it is a staticmethod) and
returns the unique variant otherwise. -/
theorem dojo_duplicate_level_check_in_lookup (subclasses : List MasterCls)
    (max_level : Option Nat) (lvl : Int) :
    (∃ cs, Dojo.init subclasses max_level = .ok cs) ∧
    (∀ c c' rest,
      subclasses.filter (fun cls => cls.dojo_level = lvl) = c :: c' :: rest →
      DojoMaster.subclass_from_dojo_level subclasses lvl =
        .error (.nameError "self")) ∧
    (∀ c, subclasses.filter (fun cls => cls.dojo_level = lvl) = [c] →
      DojoMaster.subclass_from_dojo_level subclasses lvl = .ok c) := by
  refine ⟨?_, ?_, ?_⟩
  · cases max_level <;> exact ⟨_, rfl⟩
  · intro c c' rest h
    unfold DojoMaster.subclass_from_dojo_level
    rw [h]
  · intro c h
    unfold DojoMaster.subclass_from_dojo_level
    rw [h]

/-- Witness for C3 amended: two variants at level 0 make the lookup fail while
construction still succeeds; a unique variant at level 1 is returned. -/
theorem dojo_duplicate_level_check_in_lookup_witness :
    (∃ cs, Dojo.init [⟨0, "a"⟩, ⟨0, "b"⟩] none = .ok cs) ∧
    DojoMaster.subclass_from_dojo_level [⟨0, "a"⟩, ⟨0, "b"⟩] 0 =
      .error (.nameError "self") ∧
    DojoMaster.subclass_from_dojo_level dojoSubclasses 1 = .ok deltaCls :=
  ⟨(dojo_duplicate_level_check_in_lookup [⟨0, "a"⟩, ⟨0, "b"⟩] none 0).1,
    (dojo_duplicate_level_check_in_lookup [⟨0, "a"⟩, ⟨0, "b"⟩] none 0).2.1
      ⟨0, "a"⟩ ⟨0, "b"⟩ [] (by decide),
    (dojo_duplicate_level_check_in_lookup dojoSubclasses none 1).2.2 deltaCls (by decide)⟩

theorem run_masters_levels (T : Trainer) (pseudo : Pseudo) (workdir : String)
    (masters : List DojoMaster) (l : Int)
    (hl : l ∈ (Dojo.run_masters T pseudo workdir masters).1) :
    ∃ m ∈ masters, m.dojo_level = l := by
  induction masters with
  | nil => simp [Dojo.run_masters] at hl
  | cons m rest ih =>
    by_cases hr : readyFor m.dojo_level pseudo
    · rcases hT : T (m.accept_pseudo pseudo).2 workdir with ⟨m'', r⟩
      cases r with
      | error e =>
        simp [Dojo.run_masters, accept_pseudo_fst, hr, hT, accept_pseudo_snd_level] at hl
        exact ⟨m, List.mem_cons_self _ _, hl.symm⟩
      | ok u =>
        simp [Dojo.run_masters, accept_pseudo_fst, hr, hT, accept_pseudo_snd_level] at hl
        rcases hl with hl | hl
        · exact ⟨m, List.mem_cons_self _ _, hl.symm⟩
        · obtain ⟨m', hm', hlv⟩ := ih hl
          exact ⟨m', List.mem_cons_of_mem _ hm', hlv⟩
    · simp [Dojo.run_masters, accept_pseudo_fst, hr] at hl
      obtain ⟨m', hm', hlv⟩ := ih hl
      exact ⟨m', List.mem_cons_of_mem _ hm', hlv⟩

theorem run_masters_trace_ok (T : Trainer) (pseudo : Pseudo) (workdir : String)
    (masters : List DojoMaster)
    (hok : (Dojo.run_masters T pseudo workdir masters).2 = .ok ()) :
    (Dojo.run_masters T pseudo workdir masters).1 =
      (masters.filter (fun m => readyFor m.dojo_level pseudo)).map
        (fun m => m.dojo_level) := by
  induction masters with
  | nil => rfl
  | cons m rest ih =>
    by_cases hr : readyFor m.dojo_level pseudo
    · rcases hT : T (m.accept_pseudo pseudo).2 workdir with ⟨m2, r⟩
      cases r with
      | error e =>
        simp only [Dojo.run_masters, accept_pseudo_fst] at hok
        rw [if_pos hr, hT] at hok
        simp at hok
      | ok u =>
        simp only [Dojo.run_masters, accept_pseudo_fst] at hok ⊢
        rw [if_pos hr, hT] at hok ⊢
        dsimp only at hok ⊢
        rw [accept_pseudo_snd_level, ih hok]
        simp [List.filter_cons, hr]
    · simp only [Dojo.run_masters, accept_pseudo_fst] at hok ⊢
      rw [if_neg hr] at hok ⊢
      rw [ih hok]
      simp [List.filter_cons, hr]

/-- Claim C8: with `max_level=0` against the two discovered variants, only the
level-0 class survives construction, so only the level-0 validator is
instantiated and its level is the only one that can be trained; with no
`max_level`, both variants are instantiated in ascending level order and, when
no training raises, the trained levels are exactly those whose
`accept_pseudo` returned true, in ascending order. -/
theorem dojo_max_level_and_order (T : Trainer) (pseudo : Pseudo) (runmode : RunMode) :
    Dojo.init dojoSubclasses (some 0) = .ok [hintsCls] ∧
    (Dojo.challenge_pseudo [hintsCls] T pseudo runmode).1 =
      [DojoMaster.initMaster hintsCls (some runmode)] ∧
    (∀ l ∈ (Dojo.challenge_pseudo [hintsCls] T pseudo runmode).2.1, l = 0) ∧
    Dojo.init dojoSubclasses none = .ok [hintsCls, deltaCls] ∧
    (Dojo.challenge_pseudo [hintsCls, deltaCls] T pseudo runmode).1 =
      [DojoMaster.initMaster hintsCls (some runmode),
       DojoMaster.initMaster deltaCls (some runmode)] ∧
    ((Dojo.challenge_pseudo [hintsCls, deltaCls] T pseudo runmode).2.2 = .ok () →
      (Dojo.challenge_pseudo [hintsCls, deltaCls] T pseudo runmode).2.1 =
        (if readyFor 0 pseudo then [(0 : Int)] else []) ++
        (if readyFor 1 pseudo then [(1 : Int)] else [])) := by
  refine ⟨rfl, rfl, ?_, rfl, rfl, ?_⟩
  · intro l hl
    have hl' : l ∈ (Dojo.run_masters T pseudo ("DOJO_" ++ pseudo.name)
        [DojoMaster.initMaster hintsCls (some runmode)]).1 := hl
    obtain ⟨m, hm, hlev⟩ := run_masters_levels _ _ _ _ _ hl'
    simp at hm
    rw [← hlev, hm]
    rfl
  · intro hok
    have hok' : (Dojo.run_masters T pseudo ("DOJO_" ++ pseudo.name)
        ([hintsCls, deltaCls].map
          (fun cls => DojoMaster.initMaster cls (some runmode)))).2 = .ok () := hok
    have htr := run_masters_trace_ok T pseudo ("DOJO_" ++ pseudo.name)
      ([hintsCls, deltaCls].map (fun cls => DojoMaster.initMaster cls (some runmode))) hok'
    refine htr.trans ?_
    by_cases h0 : readyFor 0 pseudo <;> by_cases h1 : readyFor 1 pseudo <;>
      simp [DojoMaster.initMaster, hintsCls, deltaCls, List.filter_cons, h0, h1]

/-- Witness for C8: a level-less pseudopotential trains only at level 0 when a
run with both variants completes. -/
theorem dojo_max_level_and_order_witness :
    (Dojo.challenge_pseudo [hintsCls, deltaCls] (fun m _ => (m, .ok ()))
        ⟨"Si", none, []⟩ RunMode.sequentialMode).2.1 = [(0 : Int)] := by
  have h := (dojo_max_level_and_order (fun m _ => (m, .ok ())) ⟨"Si", none, []⟩
    RunMode.sequentialMode).2.2.2.2.2 rfl
  rw [h]
  rfl

/-- Fixture: work environment whose Work units live exactly in the directory
they are built for, with complete second-phase results. -/
def exEnv : WorkEnv :=
  { work1 := fun d => ⟨d⟩
    work2 := fun d => ⟨d⟩
    results1 := []
    results2 := [("low", JVal.num 20), ("normal", JVal.num 30), ("high", JVal.num 40)] }

/-- Claim C9 counterexample: in a completed level-0 training run the module writes
exactly two files, and the pretty-printed `report.json` lands at the top of
the `DOJO_<name>` directory, NOT inside the `LEVEL_0` subtree (only
`dojo_results.json` does). -/
theorem report_json_outside_level_subtree :
    (exMaster.start_training (fun m wd => HintsMaster.challenge m exEnv wd)
        (fun _ r => HintsMaster.make_report r) "DOJO_Si").2.2 = .ok () ∧
    (exMaster.start_training (fun m wd => HintsMaster.challenge m exEnv wd)
        (fun _ r => HintsMaster.make_report r) "DOJO_Si").1.map Prod.fst =
      ["DOJO_Si/LEVEL_0/dojo_results.json", "DOJO_Si/report.json"] ∧
    strPre (pathJoin "DOJO_Si" ("LEVEL_" ++ toString (0 : Int)))
      "DOJO_Si/report.json" = false :=
  ⟨rfl, by decide, by decide⟩

/-- Claim C9 amended: the `dojo_results.json` audit artifact of a completed level-0
challenge is written inside the level's `LEVEL_0` work subtree, while the
pretty-printed `report.json` raw-results dump of `start_training` is written
directly under the top working directory (`<workdir>/report.json`), not inside
the level subtree. -/
theorem hints_artifact_locations (m : DojoMaster) (p : Pseudo) (env : WorkEnv)
    (workdir : String) (hbound : m.pseudo = some p) (hlvl : m.dojo_level = 0)
    (henv : ∀ d, strPre d (env.work2 d).workdir = true) :
    ((HintsMaster.challenge m env workdir).1.map Prod.fst =
      [(env.work2 (pathJoin workdir "LEVEL_0")).path_in_workdir "dojo_results.json"]) ∧
    (∀ path ∈ (HintsMaster.challenge m env workdir).1.map Prod.fst,
      strPre (pathJoin workdir "LEVEL_0") path = true) ∧
    (∀ ch mk fws results report isok, ch m workdir = (fws, Except.ok results) →
      mk m results = Except.ok (report, isok) →
      (m.start_training ch mk workdir).1 =
        fws ++ [(pathJoin workdir "report.json", JVal.obj results)]) := by
  have hstr : "LEVEL_" ++ toString (0 : Int) = "LEVEL_0" := rfl
  have hch : HintsMaster.challenge m env workdir =
      ([((env.work2 (pathJoin workdir "LEVEL_0")).path_in_workdir "dojo_results.json",
         JVal.obj env.results2)], .ok env.results2) := by
    unfold HintsMaster.challenge
    rw [hbound]
    dsimp only
    rw [hlvl, hstr]
  refine ⟨?_, ?_, ?_⟩
  · rw [hch]
    rfl
  · intro path hpath
    rw [hch] at hpath
    simp at hpath
    rw [hpath]
    exact strPre_trans (henv (pathJoin workdir "LEVEL_0")) (strPre_pathJoin _ _)
  · intro ch mk fws results report isok hc hm2
    unfold DojoMaster.start_training
    cases isok <;> simp [hc, hm2]

/-- Witness for C9 amended at the concrete fixture run. -/
theorem hints_artifact_locations_witness :
    (HintsMaster.challenge exMaster exEnv "DOJO_Si").1.map Prod.fst =
      ["DOJO_Si/LEVEL_0/dojo_results.json"] ∧
    strPre (pathJoin "DOJO_Si" "LEVEL_0") "DOJO_Si/LEVEL_0/dojo_results.json" = true := by
  have h := hints_artifact_locations exMaster ⟨"Si", none, []⟩ exEnv "DOJO_Si" rfl rfl
    (fun d => by simp [strPre, exEnv, List.isPrefixOf_iff_prefix])
  refine ⟨by rw [h.1]; decide, ?_⟩
  exact h.2.1 ((exEnv.work2 (pathJoin "DOJO_Si" "LEVEL_0")).path_in_workdir
    "dojo_results.json") (by rw [h.1]; simp)
